import Mathlib

/-!
Verification of the GUI Automation Tool core against its specification.

The development shallowly embeds the algorithmic core of the repository:

* the Locator `find_image_on_screen` (src/app/utils/image_utils.py), including
  its retry loop, inner/outer exception handling and anchor-point dictionary;
* the anchor-point geometry (src/app/utils/image_utils.py lines 42-60, shared
  with src/image_automation.py lines 56-76);
* the step executor `AutomationEngine.execute_step` and its handlers
  (src/app/core/automation.py);
* the multi-method best-of template-matching selection
  (src/main.py, GUIAutomationTool.find_image_on_screen lines 372-391);
* the run controller `_run_all_steps` (src/app/main.py lines 114-133);
* `AutomationState.reorder_step` (src/app/core/models.py lines 94-106).

External capabilities (screen capture, OpenCV similarity scores, the file
system, input injection) are modelled as oracles or as recorded effects;
similarity scores and float parameters are modelled as rationals.
-/

namespace GuiAuto

/-- Python exceptions that can arise in the embedded control flow.
`screenshotErr` models an exception raised by pyautogui.screenshot();
`cvSizeErr` models the cv2.error raised by cv2.matchTemplate when the
template is larger than the frame; `unboundLocalTime` models the
UnboundLocalError raised when the local name `time` (bound only by the
statement importing time inside the retry-miss branch of
find_image_on_screen) is referenced in the except handler before that
statement has executed; `typeErr` models a TypeError; `errorFindingImage e`
models the generic wrapper raised by the outer except block of
find_image_on_screen (`Exception("Error finding image: ...")`). -/
inductive PyExc where
  | screenshotErr : PyExc
  | cvSizeErr : PyExc
  | unboundLocalTime : PyExc
  | typeErr : PyExc
  | errorFindingImage : PyExc → PyExc
  deriving DecidableEq

/-- A captured full-screen frame. Only its pixel dimensions are inspected by
the embedded control flow; pixel contents are absorbed into the match oracle. -/
structure Frame where
  width : Nat
  height : Nat
  deriving DecidableEq

/-- Result of decoding a template image file with cv2.imread: `decoded = false`
models imread returning None; otherwise `w`, `h` are the template's
width and height (template.shape gives h, w). -/
structure Template where
  decoded : Bool
  w : Nat
  h : Nat
  deriving DecidableEq

/-- The nine named points computed from a match's bounding box, exactly the
point-valued entries of the dict built at image_utils.py lines 47-61. -/
structure AnchorSet where
  top_left : Int × Int
  bottom_right : Int × Int
  center : Int × Int
  top_right : Int × Int
  bottom_left : Int × Int
  top_center : Int × Int
  bottom_center : Int × Int
  left_center : Int × Int
  right_center : Int × Int
  deriving DecidableEq

/-- Anchor-point computation from image_utils.py lines 42-60 (the identical
formulas appear in image_automation.py lines 56-75): `top_left = max_loc`,
`bottom_right = (x + w, y + h)`, `center = (x + w // 2, y + h // 2)` with
Python floor division on the non-negative width and height, and the six
derived edge points. -/
def anchorsOf (x y : Int) (w h : Nat) : AnchorSet :=
  let top_left : Int × Int := (x, y)
  let bottom_right : Int × Int := (x + w, y + h)
  let center : Int × Int := (x + (w / 2 : Nat), y + (h / 2 : Nat))
  { top_left := top_left
    bottom_right := bottom_right
    center := center
    top_right := (bottom_right.1, top_left.2)
    bottom_left := (top_left.1, bottom_right.2)
    top_center := (center.1, top_left.2)
    bottom_center := (center.1, bottom_right.2)
    left_center := (top_left.1, center.2)
    right_center := (bottom_right.1, center.2) }

/-- The anchor formulas exactly as the specification words them (section 4.2):
top_left=(x,y); top_right=(x+w,y); bottom_left=(x,y+h); bottom_right=(x+w,y+h);
center=(x+w/2, y+h/2) with integer division truncating toward zero;
top_center=(center.x, y); bottom_center=(center.x, y+h);
left_center=(x, center.y); right_center=(x+w, center.y). Stated independently
of `anchorsOf` so that agreement of code and spec is a theorem. -/
def anchorsSpec (x y : Int) (w h : Nat) : AnchorSet :=
  let cx : Int := x + Int.tdiv w 2
  let cy : Int := y + Int.tdiv h 2
  { top_left := (x, y)
    top_right := (x + w, y)
    bottom_left := (x, y + h)
    bottom_right := (x + w, y + h)
    center := (cx, cy)
    top_center := (cx, y)
    bottom_center := (cx, y + h)
    left_center := (x, cy)
    right_center := (x + w, cy) }

/-- The dict returned by find_image_on_screen on success (image_utils.py
lines 47-61): found=True is implicit in its presence, `confidence` is the
winning score, `width`/`height` are the template dimensions, and the nine
point entries are collected in `anchors`. -/
structure MatchDict where
  confidence : ℚ
  width : Nat
  height : Nat
  anchors : AnchorSet
  deriving DecidableEq

/-- Builds the success dict of image_utils.py lines 42-61 from the best match
location `max_loc` and the template dimensions. -/
def mkMatchDict (max_val : ℚ) (max_loc : Int × Int) (tmpl : Template) : MatchDict :=
  { confidence := max_val
    width := tmpl.w
    height := tmpl.h
    anchors := anchorsOf max_loc.1 max_loc.2 tmpl.w tmpl.h }

/-- Oracle for the external capture and matching capabilities. `capture n` is
the result of the (n+1)-st pyautogui.screenshot() call in a locate invocation
(none = the call raises); `matchScore n f` is the (max_val, max_loc) pair
reported by cv2.minMaxLoc for matching the template against frame `f` on that
cycle. cv2.matchTemplate itself raises exactly when a template dimension
exceeds the corresponding frame dimension, which the embedding tests
explicitly. -/
structure CaptureEnv where
  capture : Nat → Option Frame
  matchScore : Nat → Frame → ℚ × (Int × Int)

instance exceptDecEq {ε α : Type} [DecidableEq ε] [DecidableEq α] :
    DecidableEq (Except ε α) := fun a b =>
  match a, b with
  | .error e, .error f =>
    if h : e = f then .isTrue (h ▸ rfl) else .isFalse (fun hh => h (by cases hh; rfl))
  | .ok x, .ok y =>
    if h : x = y then .isTrue (h ▸ rfl) else .isFalse (fun hh => h (by cases hh; rfl))
  | .error _, .ok _ => .isFalse (fun hh => by cases hh)
  | .ok _, .error _ => .isFalse (fun hh => by cases hh)

/-- Observable result of one find_image_on_screen invocation: the Python
return value or raised exception, the number of pyautogui.screenshot() calls
made, and the sequence of time.sleep durations performed. -/
structure LocRes where
  outcome : Except PyExc (Option MatchDict)
  captures : Nat
  sleeps : List ℚ
  deriving DecidableEq

/-- The attempt loop of find_image_on_screen (image_utils.py lines 30-72).
`fuel` is the number of loop iterations remaining (initially max_attempts,
mirroring `for attempt in range(max_attempts)`), `attempt` the current
0-based attempt index, `timeImported` whether the `import time` statement on
the retry-miss path (line 64) has executed in this call, `captures` and
`sleeps` the effects so far. The inner except block (lines 67-70) re-raises
on the final attempt and otherwise executes `time.sleep(retry_interval)`,
which raises UnboundLocalError when `time` is still unbound, because
`import time` inside the function body makes `time` a local name. -/
def fiosLoop (env : CaptureEnv) (tmpl : Template) (confidence : ℚ)
    (max_attempts : Nat) (retry_interval : ℚ) :
    Nat → Nat → Bool → Nat → List ℚ → LocRes
  | 0, _, _, captures, sleeps =>
    { outcome := .ok none, captures := captures, sleeps := sleeps }
  | fuel + 1, attempt, timeImported, captures, sleeps =>
    match env.capture captures with
    | none =>
      -- pyautogui.screenshot() raised; control passes to the except block
      if attempt = max_attempts - 1 then
        { outcome := .error .screenshotErr, captures := captures + 1, sleeps := sleeps }
      else if timeImported then
        fiosLoop env tmpl confidence max_attempts retry_interval
          fuel (attempt + 1) timeImported (captures + 1) (sleeps ++ [retry_interval])
      else
        { outcome := .error .unboundLocalTime, captures := captures + 1, sleeps := sleeps }
    | some frame =>
      if tmpl.w > frame.width ∨ tmpl.h > frame.height then
        -- cv2.matchTemplate raised; control passes to the except block
        if attempt = max_attempts - 1 then
          { outcome := .error .cvSizeErr, captures := captures + 1, sleeps := sleeps }
        else if timeImported then
          fiosLoop env tmpl confidence max_attempts retry_interval
            fuel (attempt + 1) timeImported (captures + 1) (sleeps ++ [retry_interval])
        else
          { outcome := .error .unboundLocalTime, captures := captures + 1, sleeps := sleeps }
      else
        let s := env.matchScore captures frame
        if s.1 ≥ confidence then
          { outcome := .ok (some (mkMatchDict s.1 s.2 tmpl))
            captures := captures + 1, sleeps := sleeps }
        else if attempt < max_attempts - 1 then
          -- import time; time.sleep(retry_interval)
          fiosLoop env tmpl confidence max_attempts retry_interval
            fuel (attempt + 1) true (captures + 1) (sleeps ++ [retry_interval])
        else
          fiosLoop env tmpl confidence max_attempts retry_interval
            fuel (attempt + 1) timeImported (captures + 1) sleeps

/-- find_image_on_screen (image_utils.py lines 10-75). Returns `.ok none`
when the template fails to decode (line 27-28) or when all attempts miss
(line 72); the outer except block (lines 74-75) wraps any exception escaping
the loop in `Exception("Error finding image: ...")`. -/
def find_image_on_screen (env : CaptureEnv) (tmpl : Template) (confidence : ℚ)
    (max_attempts : Nat) (retry_interval : ℚ) : LocRes :=
  if tmpl.decoded then
    let r := fiosLoop env tmpl confidence max_attempts retry_interval
      max_attempts 0 false 0 []
    match r.outcome with
    | .error e => { r with outcome := .error (.errorFindingImage e) }
    | .ok v => { r with outcome := .ok v }
  else
    { outcome := .ok none, captures := 0, sleeps := [] }

/-- Python values that occur as step parameters or entries of the match dict. -/
inductive PyVal where
  | str : String → PyVal
  | int : Int → PyVal
  | float : ℚ → PyVal
  | bool : Bool → PyVal
  | list : List String → PyVal
  | point : Int × Int → PyVal
  deriving DecidableEq

/-- Python truthiness test `not v` for the value shapes above. -/
def pyFalsy : PyVal → Bool
  | .str s => s == ""
  | .int n => n == 0
  | .float q => q == 0
  | .bool b => !b
  | .list xs => xs.isEmpty
  | .point _ => false

/-- Decimal-free rendering of a rational, used only inside log strings. -/
def ratStr (q : ℚ) : String :=
  toString q.num ++ "/" ++ toString q.den

/-- Rendering of a value inside an f-string. -/
def pyRender : PyVal → String
  | .str s => s
  | .int n => toString n
  | .float q => ratStr q
  | .bool b => if b then "True" else "False"
  | .list xs => "[" ++ String.intercalate ", " xs ++ "]"
  | .point p => "(" ++ toString p.1 ++ ", " ++ toString p.2 ++ ")"

/-- dict.get on a params dict, returning none when the key is absent. -/
def pget (params : List (String × PyVal)) (key : String) : Option PyVal :=
  (params.find? (fun kv => kv.1 == key)).map (fun kv => kv.2)

/-- Python int(v). Floats truncate toward zero and booleans become 0/1;
parsing of numeric strings is not modelled (no verified path converts a
string), so strings and other shapes raise. -/
def pyInt : PyVal → Except PyExc Int
  | .int n => .ok n
  | .float q => .ok (Int.tdiv q.num q.den)
  | .bool b => .ok (if b then 1 else 0)
  | _ => .error .typeErr

/-- Python float(v) for the shapes that occur as step parameters. -/
def pyFloat : PyVal → Except PyExc ℚ
  | .int n => .ok n
  | .float q => .ok q
  | .bool b => .ok (if b then 1 else 0)
  | _ => .error .typeErr

/-- str.lower() restricted to its character map. -/
def pyLower (s : String) : String :=
  ⟨s.data.map Char.toLower⟩

/-- os.path.basename for slash-separated paths. -/
def basename (p : String) : String :=
  ((p.splitOn "/").getLast?).getD p

/-- The `text[:20]` preview with ellipsis used by the type-text log line. -/
def typePreview (t : String) : String :=
  String.mk (t.data.take 20) ++ (if 20 < t.data.length then "..." else "")

/-- One step record: `id` is assigned by AutomationState.add_step, `type` and
`params` come from the caller (models.AutomationStep). -/
structure AStep where
  id : String
  type : String
  params : List (String × PyVal)
  deriving DecidableEq

/-- One OS-level input-injection call issued through pyautogui. The button
argument of a click is passed through unconverted, as in the source. -/
inductive Injection where
  | moveTo : Int → Int → Injection
  | click : Int → Int → PyVal → Injection
  | write : String → Injection
  | hotkey : List String → Injection
  deriving DecidableEq

/-- Outcome of one handler invocation: the handler's Python return value or
the exception it raised, together with the injections and log calls it made
before finishing. -/
structure HOut where
  res : Except PyExc Bool
  inj : List Injection
  logs : List (String × String)

/-- Observable effect of AutomationEngine.execute_step: its boolean return
value, the input injections issued, and the log messages with their levels. -/
structure StepEff where
  ok : Bool
  inj : List Injection
  logs : List (String × String)

/-- Approximate str(e) rendering of the modelled exceptions, used only in log
strings. -/
def excMsg : PyExc → String
  | .screenshotErr => "screenshot failed"
  | .cvSizeErr => "cv2.error: template is larger than the image"
  | .unboundLocalTime => "cannot access local variable time"
  | .typeErr => "object is not subscriptable"
  | .errorFindingImage e => "Error finding image: " ++ excMsg e

/-- Oracle for the capabilities the executor consumes: os.path.exists,
cv2.imread of a path, the capture/match oracle handed to the Locator, the
datetime timestamp and the success of a screenshot save (its file-system
effects themselves are external and not tracked). -/
structure ExecEnv where
  pathExists : String → Bool
  readTemplate : String → Template
  cap : CaptureEnv
  timestamp : String
  screenshotOk : Bool

/-- AutomationEngine._execute_move_mouse (automation.py lines 68-73). -/
def execMoveMouse (params : List (String × PyVal)) : HOut :=
  match pyInt ((pget params "x").getD (.int 0)) with
  | .error e => ⟨.error e, [], []⟩
  | .ok x =>
    match pyInt ((pget params "y").getD (.int 0)) with
    | .error e => ⟨.error e, [], []⟩
    | .ok y =>
      ⟨.ok true, [.moveTo x y],
       [("Moving mouse to (" ++ toString x ++ ", " ++ toString y ++ ")", "info")]⟩

/-- AutomationEngine._execute_click (automation.py lines 75-81): missing x or
y silently default to 0; there is no parameter validation. -/
def execClick (params : List (String × PyVal)) : HOut :=
  match pyInt ((pget params "x").getD (.int 0)) with
  | .error e => ⟨.error e, [], []⟩
  | .ok x =>
    match pyInt ((pget params "y").getD (.int 0)) with
    | .error e => ⟨.error e, [], []⟩
    | .ok y =>
      let button := (pget params "button").getD (.str "left")
      ⟨.ok true, [.click x y button],
       [("Clicking at (" ++ toString x ++ ", " ++ toString y ++ ") with " ++
           pyRender button ++ " button", "info")]⟩

/-- AutomationEngine._execute_type_text (automation.py lines 83-87). -/
def execTypeText (params : List (String × PyVal)) : HOut :=
  match (pget params "text").getD (.str "") with
  | .str text =>
    ⟨.ok true, [.write text], [("Typing: " ++ typePreview text, "info")]⟩
  | _ => ⟨.error .typeErr, [], []⟩

/-- AutomationEngine._execute_delay (automation.py lines 89-93). The
asyncio.sleep suspension has no observable effect here. -/
def execDelay (params : List (String × PyVal)) : HOut :=
  match pyFloat ((pget params "seconds").getD (.int 0)) with
  | .error e => ⟨.error e, [], []⟩
  | .ok delay =>
    ⟨.ok true, [], [("Waiting for " ++ ratStr delay ++ " seconds", "info")]⟩

/-- AutomationEngine._execute_screenshot (automation.py lines 95-131). Both
inner and outer try blocks swallow every exception, so the handler always
returns None (success) and issues no input injection; directory creation and
file saving are external effects represented only by the log lines. -/
def execScreenshot (fenv : ExecEnv) (_params : List (String × PyVal)) : HOut :=
  let filename := "screenshot_" ++ fenv.timestamp ++ ".png"
  if fenv.screenshotOk then
    ⟨.ok true, [],
     [("[DEBUG] Starting screenshot capture...", "debug"),
      ("[INFO] Capturing screenshot to " ++ filename, "info"),
      ("[SUCCESS] Screenshot saved to " ++ filename, "success")]⟩
  else
    ⟨.ok true, [],
     [("[DEBUG] Starting screenshot capture...", "debug"),
      ("[INFO] Capturing screenshot to " ++ filename, "info"),
      ("[ERROR] Failed to take screenshot", "error")]⟩

/-- AutomationEngine._execute_press_hotkey (automation.py lines 169-180):
when both lists are falsy the handler logs a warning and returns None, which
execute_step reports as success. -/
def execPressHotkey (params : List (String × PyVal)) : HOut :=
  let keys := (pget params "keys").getD (.list [])
  let modifiers := (pget params "modifiers").getD (.list [])
  if pyFalsy keys && pyFalsy modifiers then
    ⟨.ok true, [], [("No keys or modifiers specified for hotkey.", "warning")]⟩
  else
    match modifiers, keys with
    | .list ms, .list ks =>
      let all_keys := ms ++ ks
      ⟨.ok true, [.hotkey all_keys],
       [("Pressing hotkey: " ++ String.intercalate ", " all_keys, "info")]⟩
    | _, _ => ⟨.error .typeErr, [], []⟩

/-- dict lookup on the match dict returned by the Locator, with the keys in
the order the source dict literal lists them. A non-string key never equals a
string key, so it falls to the default. -/
def dictGet (d : MatchDict) : PyVal → Option PyVal
  | .str "found" => some (.bool true)
  | .str "confidence" => some (.float d.confidence)
  | .str "top_left" => some (.point d.anchors.top_left)
  | .str "bottom_right" => some (.point d.anchors.bottom_right)
  | .str "center" => some (.point d.anchors.center)
  | .str "width" => some (.int d.width)
  | .str "height" => some (.int d.height)
  | .str "top_right" => some (.point d.anchors.top_right)
  | .str "bottom_left" => some (.point d.anchors.bottom_left)
  | .str "top_center" => some (.point d.anchors.top_center)
  | .str "bottom_center" => some (.point d.anchors.bottom_center)
  | .str "left_center" => some (.point d.anchors.left_center)
  | .str "right_center" => some (.point d.anchors.right_center)
  | _ => none

/-- AutomationEngine._execute_find_and_click_image (automation.py lines
133-167). `result.get(position, result['center'])` falls back to the center
point only when `position` is absent from the dict; a non-point entry (found,
confidence, width, height) makes `target_pos[0]` raise TypeError inside the
try block, which is caught and turned into a False return. -/
def execFindAndClickImage (fenv : ExecEnv) (params : List (String × PyVal)) : HOut :=
  match pget params "image_path" with
  | none => ⟨.ok false, [], [("Image not found", "error")]⟩
  | some v =>
    if pyFalsy v then ⟨.ok false, [], [("Image not found", "error")]⟩
    else
      match v with
      | .str image_path =>
        if fenv.pathExists image_path then
          let position := (pget params "position").getD (.str "center")
          let button := (pget params "button").getD (.str "left")
          match pyFloat ((pget params "confidence").getD (.float (mkRat 7 10))) with
          | .error e => ⟨.error e, [], []⟩
          | .ok confidence =>
            match pyInt ((pget params "max_attempts").getD (.int 1)) with
            | .error e => ⟨.error e, [], []⟩
            | .ok max_attempts =>
              match pyFloat ((pget params "retry_interval").getD (.float (mkRat 1 2))) with
              | .error e => ⟨.error e, [], []⟩
              | .ok retry_interval =>
                let searchLog : String × String :=
                  ("Searching for image: " ++ basename image_path, "info")
                match (find_image_on_screen fenv.cap (fenv.readTemplate image_path)
                    confidence max_attempts.toNat retry_interval).outcome with
                | .error e =>
                  ⟨.ok false, [],
                   [searchLog, ("Error finding/clicking image: " ++ excMsg e, "error")]⟩
                | .ok none =>
                  ⟨.ok false, [], [searchLog, ("Image not found on screen", "warning")]⟩
                | .ok (some result) =>
                  let target_pos := (dictGet result position).getD (.point result.anchors.center)
                  let foundLog : String × String :=
                    ("Found image at " ++ pyRender target_pos ++ ", clicking with " ++
                       pyRender button ++ " button", "info")
                  match target_pos with
                  | .point pt =>
                    ⟨.ok true, [.click pt.1 pt.2 button], [searchLog, foundLog]⟩
                  | _ =>
                    ⟨.ok false, [],
                     [searchLog, foundLog,
                      ("Error finding/clicking image: " ++ excMsg .typeErr, "error")]⟩
        else ⟨.ok false, [], [("Image not found", "error")]⟩
      | _ => ⟨.error .typeErr, [], []⟩

/-- AutomationEngine.execute_step (automation.py lines 31-66): lower-cases
the declared type, dispatches to the matching handler, returns True when a
None-returning handler finishes, passes the find-and-click handler's boolean
through, and converts any exception into a False return with an error log. -/
def execute_step (fenv : ExecEnv) (step : AStep) : StepEff :=
  let step_type := pyLower step.type
  let params := step.params
  let h : HOut :=
    if step_type = "move mouse" then execMoveMouse params
    else if step_type = "click" then execClick params
    else if step_type = "type text" then execTypeText params
    else if step_type = "delay" then execDelay params
    else if step_type = "screenshot" then execScreenshot fenv params
    else if step_type = "find and click image" then execFindAndClickImage fenv params
    else if step_type = "press hotkey" then execPressHotkey params
    else ⟨.ok false, [], [("Unknown step type: " ++ step_type, "error")]⟩
  match h.res with
  | .ok b => ⟨b, h.inj, h.logs⟩
  | .error e =>
    ⟨false, h.inj,
     h.logs ++ [("Error executing " ++ step_type ++ " step: " ++ excMsg e, "error")]⟩

/-- Log and execution trace of one _run_all_steps invocation: the messages
pushed through _log (message, level) and the 0-based indices of the steps for
which execute_step was invoked, in invocation order. -/
structure RunLog where
  logs : List (String × String)
  executed : List Nat
  deriving DecidableEq

/-- The step loop of GUIAutomationApp._run_all_steps (src/app/main.py lines
123-128): run each step through the executor, and on the first failure log
the failing step's type and break. The executor is abstracted as a boolean
function because execute_step catches every exception and returns a bool.
Returns the log entries the loop itself produces and the executed indices. -/
def runLoop (ex : AStep → Bool) : List AStep → Nat → List (String × String) × List Nat
  | [], _ => ([], [])
  | s :: rest, i =>
    if ex s then
      let r := runLoop ex rest (i + 1)
      (r.1, i :: r.2)
    else
      ([("Step failed: " ++ s.type, "error")], [i])

/-- GUIAutomationApp._run_all_steps (src/app/main.py lines 114-133): an
empty list only logs a warning; otherwise the run logs a start message, runs
the loop, and then unconditionally logs "Automation completed!" whether or
not the loop broke on a failure. No run status or failing index is recorded
anywhere beyond these log lines. -/
def runAllSteps (ex : AStep → Bool) (steps : List AStep) : RunLog :=
  match steps with
  | [] => { logs := [("No steps to run", "warning")], executed := [] }
  | _ :: _ =>
    let r := runLoop ex steps 0
    { logs := ("Starting automation...", "info") :: r.1 ++ [("Automation completed!", "info")]
      executed := r.2 }

/-- OpenCV template-matching methods named by the multi-method locator in
src/main.py line 373 and its squared-difference test on line 382. -/
inductive TMMethod where
  | TM_CCOEFF_NORMED : TMMethod
  | TM_CCORR_NORMED : TMMethod
  | TM_SQDIFF_NORMED : TMMethod
  | TM_SQDIFF : TMMethod
  deriving DecidableEq

/-- The cv2.minMaxLoc output for one method's result matrix. -/
structure MinMaxLoc where
  min_val : ℚ
  max_val : ℚ
  min_loc : Int × Int
  max_loc : Int × Int
  deriving DecidableEq

/-- The running best of GUIAutomationTool.find_image_on_screen
(src/main.py line 374), initialised to val = -1 with no location or method. -/
structure BestMatch where
  val : ℚ
  loc : Option (Int × Int)
  method : Option TMMethod
  deriving DecidableEq

/-- The configured method list of src/main.py line 373. -/
def multiMethods : List TMMethod :=
  [.TM_CCOEFF_NORMED, .TM_CCORR_NORMED, .TM_SQDIFF_NORMED]

/-- One iteration of the method loop in src/main.py lines 376-389: a method
whose matchTemplate call raised is logged as a warning and skipped; for the
squared-difference methods the minimum value and location are taken,
otherwise the maximum; in both cases the candidate replaces the running best
exactly when it is strictly greater than best.val. -/
def bestMatchStep (best : BestMatch) (method : TMMethod) (res : Option MinMaxLoc) :
    BestMatch :=
  match res with
  | none => best
  | some r =>
    if [TMMethod.TM_SQDIFF, TMMethod.TM_SQDIFF_NORMED].contains method then
      if r.min_val > best.val then ⟨r.min_val, some r.min_loc, some method⟩ else best
    else
      if r.max_val > best.val then ⟨r.max_val, some r.max_loc, some method⟩ else best

/-- The per-attempt best-of selection of src/main.py lines 372-391. `run m`
is the minMaxLoc oracle for method `m` (none = that matchTemplate call
raised). -/
def multiMethodBest (run : TMMethod → Option MinMaxLoc) : BestMatch :=
  multiMethods.foldl (fun b m => bestMatchStep b m (run m)) ⟨-1, none, none⟩

/-- Whether a method's native convention is lower-is-better: the
squared-difference methods, whose best score is the minimum value. -/
def isLowerBetter : TMMethod → Bool
  | .TM_SQDIFF => true
  | .TM_SQDIFF_NORMED => true
  | _ => false

/-- The normalized, higher-is-better score of one strategy as the
specification words it (section 4.1): strategies whose native convention is
lower-is-better are normalized (here as 1 - min_val, mapping the perfect
squared-difference score 0 to 1) before the best-of comparison; all other
strategies score max_val. Stated independently of `bestMatchStep` so that
agreement of code and spec is a theorem. -/
def specNormScore (method : TMMethod) (r : MinMaxLoc) : ℚ :=
  if isLowerBetter method then 1 - r.min_val else r.max_val

/-- One step of the specification's best-of policy: keep the strategy with
the strictly highest normalized score, ties resolved in favor of the
earlier-configured strategy. -/
def specBestStep (best : Option (TMMethod × ℚ)) (method : TMMethod)
    (res : Option MinMaxLoc) : Option (TMMethod × ℚ) :=
  match res with
  | none => best
  | some r =>
    let sc := specNormScore method r
    match best with
    | none => some (method, sc)
    | some (bm, bv) => if sc > bv then some (method, sc) else some (bm, bv)

/-- The specification's normalized best-of selection over the configured
method list, for comparison with `multiMethodBest`. -/
def specNormalizedBest (run : TMMethod → Option MinMaxLoc) : Option (TMMethod × ℚ) :=
  multiMethods.foldl (fun b m => specBestStep b m (run m)) none

/-- The state holder of src/app/core/models.py (the fields its step
operations touch; the temp-directory bookkeeping is external). -/
structure AutomationState where
  steps : List AStep
  step_counter : Nat
  deriving DecidableEq

/-- AutomationState.reorder_step (models.py lines 94-106): both indices are
bounds-checked first (Python semantics: `0 <= i < len`), then the step is
removed with pop(old_index) and re-inserted with insert(new_index, step).
With both indices in bounds neither list call can raise, so the except
branch of the source is unreachable. -/
def reorder_step (st : AutomationState) (old_index new_index : Int) :
    Bool × AutomationState :=
  if h : 0 ≤ old_index ∧ old_index < st.steps.length ∧
      0 ≤ new_index ∧ new_index < st.steps.length then
    let step_to_move := st.steps.get ⟨old_index.toNat, by omega⟩
    (true,
     { st with steps :=
        (st.steps.eraseIdx old_index.toNat).insertIdx new_index.toNat step_to_move })
  else
    (false, st)

/-! Concrete fixtures used by witnesses and counterexamples. -/

/-- A 100 by 100 frame environment on which every match scores 0. -/
def envMiss : CaptureEnv :=
  { capture := fun _ => some ⟨100, 100⟩
    matchScore := fun _ _ => (0, (0, 0)) }

/-- An environment with a 50 by 50 frame, for oversized-template runs. -/
def envSmallFrame : CaptureEnv :=
  { capture := fun _ => some ⟨50, 50⟩
    matchScore := fun _ _ => (0, (0, 0)) }

/-- An environment whose screenshot call always raises. -/
def envRaise : CaptureEnv :=
  { capture := fun _ => none
    matchScore := fun _ _ => (0, (0, 0)) }

/-- An environment with a large frame on which every match scores 1 at
location (100, 200). -/
def envHit : CaptureEnv :=
  { capture := fun _ => some ⟨1000, 1000⟩
    matchScore := fun _ _ => (1, (100, 200)) }

/-- A decoded 20 by 10 template. -/
def tmplSmall : Template := ⟨true, 20, 10⟩

/-- A decoded template both of whose dimensions exceed a 50 by 50 frame. -/
def tmplBig : Template := ⟨true, 120, 80⟩

/-- Executor environment for the find-and-click fixtures: every path exists
and resolves to the 20 by 10 template, matching hits immediately. -/
def fenvHit : ExecEnv :=
  { pathExists := fun _ => true
    readTemplate := fun _ => tmplSmall
    cap := envHit
    timestamp := "20240101_120000"
    screenshotOk := true }

/-- The match dict the Locator returns under `fenvHit`. -/
def dictHit : MatchDict := mkMatchDict 1 (100, 200) tmplSmall

/-- Steps A, B, C of the run-controller scenarios. -/
def stepA : AStep := { id := "step_0", type := "move mouse", params := [] }

def stepB : AStep := { id := "step_1", type := "click", params := [] }

def stepC : AStep := { id := "step_2", type := "delay", params := [] }

/-- An executor behavior that fails exactly on step B. -/
def exFailB : AStep → Bool := fun s => !(s.id == "step_1")

/-- An executor behavior that fails exactly on step C. -/
def exFailC : AStep → Bool := fun s => !(s.id == "step_2")

/-- A Click step carrying an x position but no y. -/
def stepClickNoY : AStep :=
  { id := "step_0", type := "click", params := [("x", .int 100)] }

/-- A PressHotkey step whose modifier and key lists are both empty. -/
def stepHotkeyEmpty : AStep :=
  { id := "step_0", type := "press hotkey"
    params := [("keys", .list []), ("modifiers", .list [])] }

/-- A FindAndClickImage step whose position parameter names the dict entry
"width", which is present in the match dict but is not an anchor point. -/
def stepClickWidth : AStep :=
  { id := "step_0", type := "find and click image"
    params := [("image_path", .str "img.png"), ("position", .str "width"),
               ("button", .str "left"), ("confidence", .float 1),
               ("max_attempts", .int 1), ("retry_interval", .float 0)] }

/-- A FindAndClickImage step whose position parameter is the misspelling
"topleft", which is not a key of the match dict at all. -/
def stepClickTopleft : AStep :=
  { id := "step_0", type := "find and click image"
    params := [("image_path", .str "img.png"), ("position", .str "topleft"),
               ("button", .str "left")] }

/-- Method scores on which the unnormalized best-of misbehaves: the
squared-difference method reports a poor match (min_val 9/10, where 0 would
be perfect), while the correlation methods report moderate max scores. -/
def runScores : TMMethod → Option MinMaxLoc
  | .TM_CCOEFF_NORMED => some ⟨0, mkRat 1 2, (0, 0), (10, 10)⟩
  | .TM_CCORR_NORMED => some ⟨0, mkRat 2 5, (0, 0), (20, 20)⟩
  | .TM_SQDIFF_NORMED => some ⟨mkRat 9 10, 1, (30, 30), (40, 40)⟩
  | .TM_SQDIFF => none

/-! Theorems. -/

/-- Truncating division on a cast natural agrees with natural division. -/
theorem tdiv_two_natCast (w : Nat) : Int.tdiv (w : Int) 2 = ((w / 2 : Nat) : Int) := rfl

/-- C4: for every box with integer x, y and width w at least 1, height h at
least 1, the anchor set computed by the code equals exactly the
specification's formulas (top_left=(x,y), top_right=(x+w,y),
bottom_left=(x,y+h), bottom_right=(x+w,y+h), center=(x+w/2, y+h/2) with
truncating integer division, top_center=(center.x,y),
bottom_center=(center.x,y+h), left_center=(x,center.y),
right_center=(x+w,center.y)); in particular for the box (10,10,20,10) the
center is (20,15), top_right is (30,10), bottom_center is (20,20) and
left_center is (10,15). -/
theorem anchors_match_spec (x y : Int) (w h : Nat) (hw : 1 ≤ w) (hh : 1 ≤ h) :
    anchorsOf x y w h = anchorsSpec x y w h ∧
    (anchorsOf 10 10 20 10).center = (20, 15) ∧
    (anchorsOf 10 10 20 10).top_right = (30, 10) ∧
    (anchorsOf 10 10 20 10).bottom_center = (20, 20) ∧
    (anchorsOf 10 10 20 10).left_center = (10, 15) :=
  ⟨rfl, by decide, by decide, by decide, by decide⟩

/-- Witness for C4 at the box (10, 10, 20, 10). -/
theorem anchors_match_spec_witness :
    (1 ≤ 20 ∧ 1 ≤ 10) ∧
    (anchorsOf 10 10 20 10 = anchorsSpec 10 10 20 10 ∧
     (anchorsOf 10 10 20 10).center = (20, 15) ∧
     (anchorsOf 10 10 20 10).top_right = (30, 10) ∧
     (anchorsOf 10 10 20 10).bottom_center = (20, 20) ∧
     (anchorsOf 10 10 20 10).left_center = (10, 15)) :=
  ⟨⟨by decide, by decide⟩, anchors_match_spec 10 10 20 10 (by decide) (by decide)⟩

/-- C2: a template that decodes but has a dimension larger than the captured
frame makes the first cv2.matchTemplate call raise; the locate call then
fails on the first attempt with exactly one capture-and-match cycle and no
retry sleep, for every max_attempts at least 1. With max_attempts = 1 the
cv2 error itself propagates (wrapped by the outer handler); with larger
max_attempts the except block's time.sleep raises UnboundLocalError, which
propagates identically, so no second cycle ever occurs. -/
theorem oversized_template_fails_first_attempt
    (env : CaptureEnv) (tmpl : Template) (confidence retry_interval : ℚ)
    (max_attempts : Nat) (hma : 1 ≤ max_attempts)
    (f : Frame) (hcap : env.capture 0 = some f)
    (hdec : tmpl.decoded = true)
    (hover : tmpl.w > f.width ∨ tmpl.h > f.height) :
    find_image_on_screen env tmpl confidence max_attempts retry_interval =
      { outcome := .error (.errorFindingImage
          (if max_attempts = 1 then .cvSizeErr else .unboundLocalTime))
        captures := 1
        sleeps := [] } := by
  obtain ⟨n, rfl⟩ : ∃ n, max_attempts = n + 1 := ⟨max_attempts - 1, by omega⟩
  cases n with
  | zero =>
    simp [find_image_on_screen, hdec, fiosLoop, hcap, hover]
  | succ m =>
    have h1 : ¬ ((0 : Nat) = m + 1 + 1 - 1) := by omega
    simp [find_image_on_screen, hdec, fiosLoop, hcap, hover, h1]

/-- Witness for C2: a 120 by 80 template against a 50 by 50 frame with
max_attempts = 3 raises on the first attempt after one capture. -/
theorem oversized_template_fails_first_attempt_witness :
    find_image_on_screen envSmallFrame tmplBig 1 3 0 =
      { outcome := .error (.errorFindingImage .unboundLocalTime)
        captures := 1
        sleeps := [] } := by
  have h := oversized_template_fails_first_attempt envSmallFrame tmplBig 1 0 3
    (by omega) ⟨50, 50⟩ rfl rfl (by decide)
  simpa using h

/-- On an environment where every capture succeeds, no capture is oversized
and every score misses the threshold, the attempt loop consumes all its fuel
and returns the not-found result, performing one capture per iteration. -/
theorem fiosLoop_miss (env : CaptureEnv) (tmpl : Template) (confidence : ℚ)
    (max_attempts : Nat) (retry_interval : ℚ)
    (hmiss : ∀ n f, env.capture n = some f →
      (tmpl.w ≤ f.width ∧ tmpl.h ≤ f.height) ∧ (env.matchScore n f).1 < confidence)
    (hcap : ∀ n, (env.capture n).isSome) :
    ∀ fuel attempt timeImported captures sleeps,
      (fiosLoop env tmpl confidence max_attempts retry_interval
          fuel attempt timeImported captures sleeps).outcome = .ok none ∧
      (fiosLoop env tmpl confidence max_attempts retry_interval
          fuel attempt timeImported captures sleeps).captures = captures + fuel := by
  intro fuel
  induction fuel with
  | zero =>
    intro attempt timeImported captures sleeps
    simp [fiosLoop]
  | succ n ih =>
    intro attempt timeImported captures sleeps
    obtain ⟨f, hf⟩ := Option.isSome_iff_exists.mp (hcap captures)
    obtain ⟨⟨hw, hh⟩, hsc⟩ := hmiss captures f hf
    simp only [fiosLoop, hf]
    rw [if_neg (by omega : ¬ (tmpl.w > f.width ∨ tmpl.h > f.height))]
    rw [if_neg (not_le.mpr hsc)]
    by_cases hlt : attempt < max_attempts - 1
    · rw [if_pos hlt]
      have h := ih (attempt + 1) true (captures + 1) (sleeps ++ [retry_interval])
      exact ⟨h.1, by omega⟩
    · rw [if_neg hlt]
      have h := ih (attempt + 1) timeImported (captures + 1) sleeps
      exact ⟨h.1, by omega⟩

/-- C3: for every max_attempts at least 1 and retry_interval at least 0, if
every attempt's capture succeeds, the template fits the frame and the best
match score stays below the confidence threshold, then locate performs
exactly max_attempts capture-and-match cycles and returns the Python value
None (found = false) normally rather than raising. -/
theorem locate_exhausts_attempts_not_found
    (env : CaptureEnv) (tmpl : Template) (confidence : ℚ)
    (max_attempts : Nat) (retry_interval : ℚ)
    (hma : 1 ≤ max_attempts) (hri : 0 ≤ retry_interval)
    (hdec : tmpl.decoded = true)
    (hcap : ∀ n, (env.capture n).isSome)
    (hmiss : ∀ n f, env.capture n = some f →
      (tmpl.w ≤ f.width ∧ tmpl.h ≤ f.height) ∧ (env.matchScore n f).1 < confidence) :
    (find_image_on_screen env tmpl confidence max_attempts retry_interval).outcome =
      .ok none ∧
    (find_image_on_screen env tmpl confidence max_attempts retry_interval).captures =
      max_attempts := by
  have h := fiosLoop_miss env tmpl confidence max_attempts retry_interval hmiss hcap
    max_attempts 0 false 0 []
  constructor
  · simp only [find_image_on_screen, hdec, if_true, h.1]
  · simp only [find_image_on_screen, hdec, if_true, h.1]
    simpa using h.2

/-- Witness for C3: a 20 by 10 template on a 100 by 100 frame scoring 0
against threshold 1 with max_attempts = 3 and retry_interval = 0. -/
theorem locate_exhausts_attempts_not_found_witness :
    (find_image_on_screen envMiss tmplSmall 1 3 0).outcome = .ok none ∧
    (find_image_on_screen envMiss tmplSmall 1 3 0).captures = 3 := by
  refine locate_exhausts_attempts_not_found envMiss tmplSmall 1 3 0 (by omega) (by decide)
    rfl (fun _ => rfl) ?_
  intro n f hf
  injection hf with h1
  subst h1
  exact ⟨⟨by decide, by decide⟩, (by decide : (0 : ℚ) < 1)⟩

/-- C7 failing input: with max_attempts = 2 an exception raised during the
first attempt (the screenshot call raises) is not treated as a failed attempt
to retry; because the `import time` on the miss path has not executed, the
except handler's time.sleep raises UnboundLocalError and the call fails after
a single capture, instead of sleeping and proceeding to attempt 1 as the
claim requires. -/
theorem first_attempt_exception_not_retried :
    find_image_on_screen envRaise ⟨true, 5, 5⟩ 1 2 (mkRat 1 2) =
      { outcome := .error (.errorFindingImage .unboundLocalTime)
        captures := 1
        sleeps := [] } := by decide

/-- If the first k steps succeed and step k fails, the loop of _run_all_steps
invokes the executor exactly on indices i0 .. i0 + k in order and produces
the single failure log naming step k's type. -/
theorem runLoop_prefix_fail (ex : AStep → Bool) :
    ∀ (l : List AStep) (k i0 : Nat) (hk : k < l.length),
      (∀ i (hi : i < k), ex (l.get ⟨i, hi.trans hk⟩) = true) →
      ex (l.get ⟨k, hk⟩) = false →
      runLoop ex l i0 =
        ([("Step failed: " ++ (l.get ⟨k, hk⟩).type, "error")],
         (List.range (k + 1)).map (· + i0))
  | [], k, i0, hk => by simp at hk
  | s :: rest, 0, i0, hk => by
    intro _ hfail
    simp only [List.get] at hfail
    simp [runLoop, hfail, List.range_succ]
  | s :: rest, k + 1, i0, hk => by
    intro hpre hfail
    have hs : ex s = true := hpre 0 (Nat.succ_pos k)
    have hk' : k < rest.length := Nat.lt_of_succ_lt_succ hk
    have hpre' : ∀ i (hi : i < k), ex (rest.get ⟨i, hi.trans hk'⟩) = true :=
      fun i hi => hpre (i + 1) (Nat.succ_lt_succ hi)
    have hfail' : ex (rest.get ⟨k, hk'⟩) = false := hfail
    have hfun : ((fun x => x + i0) ∘ Nat.succ) = (fun x => x + (i0 + 1)) := by
      funext m
      simp only [Function.comp_apply]
      omega
    have hmap : (List.range (k + 1 + 1)).map (· + i0) =
        i0 :: (List.range (k + 1)).map (· + (i0 + 1)) := by
      rw [List.range_succ_eq_map, List.map_cons, List.map_map, Nat.zero_add, hfun]
    simp only [runLoop, hs, if_true]
    rw [runLoop_prefix_fail ex rest k (i0 + 1) hk' hpre' hfail']
    refine Prod.ext rfl ?_
    show i0 :: (List.range (k + 1)).map (· + (i0 + 1)) =
      (List.range (k + 1 + 1)).map (· + i0)
    rw [hmap]

/-- C1 (amended): for every executor behavior and step list, if steps
0 .. k-1 succeed and step k fails, then _run_all_steps invokes the executor
exactly on steps 0 .. k in order (no step after k executes), logs the failure
as "Step failed: ..." at level error, and then still ends its log with
"Automation completed!"; no Aborted status and no failed_step_index exist in
its output. -/
theorem run_fail_fast_logs_and_order (ex : AStep → Bool) (steps : List AStep) (k : Nat)
    (hk : k < steps.length)
    (hpre : ∀ i (hi : i < k), ex (steps.get ⟨i, hi.trans hk⟩) = true)
    (hfail : ex (steps.get ⟨k, hk⟩) = false) :
    runAllSteps ex steps =
      { logs := [("Starting automation...", "info"),
                 ("Step failed: " ++ (steps.get ⟨k, hk⟩).type, "error"),
                 ("Automation completed!", "info")]
        executed := List.range (k + 1) } := by
  obtain ⟨s, rest, rfl⟩ : ∃ a l, steps = a :: l := by
    cases steps with
    | nil => simp at hk
    | cons a l => exact ⟨a, l, rfl⟩
  simp only [runAllSteps]
  rw [runLoop_prefix_fail ex (s :: rest) k 0 hk hpre hfail]
  have hmap : (List.range (k + 1)).map (· + 0) = List.range (k + 1) := by simp
  simp [hmap]

/-- Witness for C1 at a 3-step list whose third step (index 2) fails. -/
theorem run_fail_fast_witness :
    runAllSteps exFailC [stepA, stepB, stepC] =
      { logs := [("Starting automation...", "info"),
                 ("Step failed: delay", "error"),
                 ("Automation completed!", "info")]
        executed := [0, 1, 2] } := by
  have h := run_fail_fast_logs_and_order exFailC [stepA, stepB, stepC] 2 (by decide)
    (fun i hi => by interval_cases i <;> rfl) (by rfl)
  rw [h]
  decide

/-- C1 counterexample to the reporting part of the claim: on a 3-step list
whose second step (index 1) fails, the complete observable output of
_run_all_steps is exhibited. Steps 0 and 1 execute and step 2 never does,
but the run reports no Aborted status and no failed_step_index: its log ends
with "Automation completed!" exactly as a fully successful run would. -/
theorem run_reports_completed_after_failure :
    runAllSteps exFailB [stepA, stepB, stepC] =
      { logs := [("Starting automation...", "info"),
                 ("Step failed: click", "error"),
                 ("Automation completed!", "info")]
        executed := [0, 1] } := by decide

/-- C5 counterexample: a Click step whose params carry x = 100 and no y does
not fail with InvalidParams; execute_step returns success and issues an
input-injection call. -/
theorem click_missing_y_succeeds_cex :
    (execute_step fenvHit stepClickNoY).ok = true ∧
    (execute_step fenvHit stepClickNoY).inj ≠ [] := by decide

/-- C5 (amended): for every Click step whose params lack the y coordinate,
execute_step does not fail: the missing coordinate silently defaults to 0
and a single click is injected at (x, 0) with the default left button. -/
theorem click_missing_y_defaults_to_zero (fenv : ExecEnv) (step : AStep) (x : Int)
    (htype : pyLower step.type = "click")
    (hx : pget step.params "x" = some (.int x))
    (hy : pget step.params "y" = none)
    (hb : pget step.params "button" = none) :
    (execute_step fenv step).ok = true ∧
    (execute_step fenv step).inj = [.click x 0 (.str "left")] := by
  simp [execute_step, htype, execClick, hx, hy, hb, pyInt]

/-- Witness for C5 at the concrete Click step with x = 100 and no y. -/
theorem click_missing_y_defaults_to_zero_witness :
    (execute_step fenvHit stepClickNoY).ok = true ∧
    (execute_step fenvHit stepClickNoY).inj = [.click 100 0 (.str "left")] :=
  click_missing_y_defaults_to_zero fenvHit stepClickNoY 100 (by decide) (by decide)
    (by decide) (by decide)

/-- C6 counterexample: a PressHotkey step with empty modifiers and keys lists
does not fail; execute_step returns success. -/
theorem hotkey_empty_success_cex :
    (execute_step fenvHit stepHotkeyEmpty).ok = true := by decide

/-- C6 (amended): for every PressHotkey step whose modifiers and keys lists
are both empty (or absent), execute_step reports success, injects nothing,
and only logs a warning; no InvalidParams failure exists. -/
theorem hotkey_empty_lists_report_success (fenv : ExecEnv) (step : AStep)
    (htype : pyLower step.type = "press hotkey")
    (hkeys : pget step.params "keys" = none ∨ pget step.params "keys" = some (.list []))
    (hmods : pget step.params "modifiers" = none ∨
      pget step.params "modifiers" = some (.list [])) :
    (execute_step fenv step).ok = true ∧
    (execute_step fenv step).inj = [] ∧
    (execute_step fenv step).logs =
      [("No keys or modifiers specified for hotkey.", "warning")] := by
  rcases hkeys with hk | hk <;> rcases hmods with hm | hm <;>
    simp [execute_step, htype, execPressHotkey, hk, hm, pyFalsy]

/-- Witness for C6 at the concrete PressHotkey step with both lists empty. -/
theorem hotkey_empty_lists_report_success_witness :
    (execute_step fenvHit stepHotkeyEmpty).ok = true ∧
    (execute_step fenvHit stepHotkeyEmpty).inj = [] ∧
    (execute_step fenvHit stepHotkeyEmpty).logs =
      [("No keys or modifiers specified for hotkey.", "warning")] :=
  hotkey_empty_lists_report_success fenvHit stepHotkeyEmpty (by decide)
    (Or.inr (by decide)) (Or.inr (by decide))

/-- C8 failing input: the multi-method selection runs all three configured
methods but compares the squared-difference method's raw min_val (where
lower is better and 0 is perfect) directly against the higher-is-better
scores of the other methods. With correlation scores 1/2 and 2/5 and a poor
squared-difference match of min_val 9/10, the code selects TM_SQDIFF_NORMED
with score 9/10, while the specification's normalized best-of (1 - min_val =
1/10) selects TM_CCOEFF_NORMED with score 1/2. -/
theorem sqdiff_best_not_normalized :
    multiMethodBest runScores =
      { val := mkRat 9 10, loc := some (30, 30), method := some .TM_SQDIFF_NORMED } ∧
    specNormalizedBest runScores = some (.TM_CCOEFF_NORMED, mkRat 1 2) := by
  constructor
  · decide
  · norm_num [specNormalizedBest, multiMethods, specBestStep, specNormScore,
      isLowerBetter, runScores, Rat.mkRat_eq_div]

/-- insertIdx at an index within bounds is a permutation of consing. -/
theorem insertIdx_perm {α : Type} (a : α) :
    ∀ (n : Nat) (l : List α), n ≤ l.length → (List.insertIdx n a l).Perm (a :: l)
  | 0, l, _ => by rw [List.insertIdx_zero]
  | n + 1, [], h => by simp at h
  | n + 1, x :: xs, h => by
    rw [List.insertIdx_succ_cons]
    exact ((insertIdx_perm a n xs (Nat.le_of_succ_le_succ h)).cons x).trans
      (List.Perm.swap a x xs)

/-- Consing an element back onto the list it was removed from by index is a
permutation of the original list. -/
theorem get_cons_eraseIdx_perm {α : Type} :
    ∀ (l : List α) (i : Nat) (h : i < l.length),
      (l.get ⟨i, h⟩ :: l.eraseIdx i).Perm l
  | _ :: _, 0, _ => List.Perm.refl _
  | x :: xs, i + 1, h => by
    show (xs.get ⟨i, _⟩ :: x :: xs.eraseIdx i).Perm (x :: xs)
    exact (List.Perm.swap x (xs.get ⟨i, Nat.lt_of_succ_lt_succ h⟩) (xs.eraseIdx i)).trans
      ((get_cons_eraseIdx_perm xs i (Nat.lt_of_succ_lt_succ h)).cons x)

/-- C9: reorder_step with either index out of bounds returns false and
leaves the state unchanged; with both indices in bounds it returns true,
places the step that was at old_index at new_index, permutes the step list
(so every step record, id included, is preserved) and leaves the step
counter alone; and the concrete 3-step list [A, B, C] reordered (0, 2)
yields [B, C, A] with identical step ids. -/
theorem reorder_step_spec (st : AutomationState) (old_index new_index : Int) :
    (¬ (0 ≤ old_index ∧ old_index < st.steps.length ∧
        0 ≤ new_index ∧ new_index < st.steps.length) →
      reorder_step st old_index new_index = (false, st)) ∧
    (∀ _ : 0 ≤ old_index ∧ old_index < st.steps.length ∧
        0 ≤ new_index ∧ new_index < st.steps.length,
      (reorder_step st old_index new_index).1 = true ∧
      (reorder_step st old_index new_index).2.steps[new_index.toNat]? =
        st.steps[old_index.toNat]? ∧
      ((reorder_step st old_index new_index).2.steps).Perm st.steps ∧
      (reorder_step st old_index new_index).2.step_counter = st.step_counter) ∧
    reorder_step ⟨[stepA, stepB, stepC], 3⟩ 0 2 =
      (true, ⟨[stepB, stepC, stepA], 3⟩) := by
  refine ⟨?_, ?_, by decide⟩
  · intro h
    simp [reorder_step, h]
  · intro h
    have ho : old_index.toNat < st.steps.length := by omega
    have hn : new_index.toNat < st.steps.length := by omega
    have hlen : (st.steps.eraseIdx old_index.toNat).length = st.steps.length - 1 := by
      simp [List.length_eraseIdx, ho]
    have hle : new_index.toNat ≤ (st.steps.eraseIdx old_index.toNat).length := by omega
    have hr : reorder_step st old_index new_index =
        (true,
         { st with
           steps := List.insertIdx new_index.toNat
             (st.steps.get ⟨old_index.toNat, ho⟩)
             (st.steps.eraseIdx old_index.toNat) }) := by
      simp only [reorder_step]
      rw [dif_pos h]
    rw [hr]
    refine ⟨rfl, ?_, ?_, rfl⟩
    · have hlt : new_index.toNat <
          (List.insertIdx new_index.toNat (st.steps.get ⟨old_index.toNat, ho⟩)
            (st.steps.eraseIdx old_index.toNat)).length := by
        rw [List.length_insertIdx new_index.toNat _ hle]
        omega
      rw [List.getElem?_eq_getElem hlt, List.getElem?_eq_getElem ho,
        List.getElem_insertIdx_self _ _ _ hle]
      rfl
    · exact (insertIdx_perm _ _ _ hle).trans (get_cons_eraseIdx_perm st.steps _ ho)

/-- Witness for C9: the concrete conjunct at the 3-step list. -/
theorem reorder_step_spec_witness :
    reorder_step ⟨[stepA, stepB, stepC], 3⟩ 0 2 =
      (true, ⟨[stepB, stepC, stepA], 3⟩) :=
  (reorder_step_spec ⟨[stepA, stepB, stepC], 3⟩ 0 2).2.2

/-- C10 counterexample: a found FindAndClickImage step whose position
parameter is "width" (not one of the nine anchor names, but present in the
match dict as a non-point value) does not fall back to the center anchor; the
dict lookup yields the integer 20, subscripting it raises TypeError and the
step fails with no click issued. -/
theorem position_width_step_fails_cex :
    (execute_step fenvHit stepClickWidth).ok = false ∧
    (execute_step fenvHit stepClickWidth).inj = [] := by decide

/-- C10 (amended): for every FindAndClickImage step whose position parameter
is absent from the match dict altogether (which the nine anchor names, found,
confidence, width and height are not), when the image is found the executor
does not fail: it silently falls back to the center anchor and clicks there. -/
theorem unknown_position_falls_back_to_center
    (fenv : ExecEnv) (step : AStep) (p pos : String) (btn : PyVal) (d : MatchDict)
    (htype : pyLower step.type = "find and click image")
    (hpath : pget step.params "image_path" = some (.str p))
    (hp : ¬ p = "")
    (hex : fenv.pathExists p = true)
    (hpos : pget step.params "position" = some (.str pos))
    (hbtn : pget step.params "button" = some btn)
    (hconf : pget step.params "confidence" = none)
    (hma : pget step.params "max_attempts" = none)
    (hri : pget step.params "retry_interval" = none)
    (hloc : (find_image_on_screen fenv.cap (fenv.readTemplate p)
        (mkRat 7 10) 1 (mkRat 1 2)).outcome = .ok (some d))
    (hkey : dictGet d (.str pos) = none) :
    (execute_step fenv step).ok = true ∧
    (execute_step fenv step).inj =
      [.click d.anchors.center.1 d.anchors.center.2 btn] := by
  simp [execute_step, htype, execFindAndClickImage, hpath, hp, hex, hpos, hbtn,
    hconf, hma, hri, hloc, hkey, pyFalsy, pyFloat, pyInt]

/-- Witness for C10 at the concrete step whose position is the misspelling
"topleft": the executor clicks the center (110, 205) of the match at
(100, 200) with size 20 by 10. -/
theorem unknown_position_falls_back_to_center_witness :
    (execute_step fenvHit stepClickTopleft).ok = true ∧
    (execute_step fenvHit stepClickTopleft).inj = [.click 110 205 (.str "left")] := by
  have h := unknown_position_falls_back_to_center fenvHit stepClickTopleft
    "img.png" "topleft" (.str "left") dictHit (by decide) (by decide) (by decide)
    rfl (by decide) (by decide) (by decide) (by decide) (by decide) (by decide)
    (by decide)
  exact ⟨h.1, by rw [h.2]; decide⟩

end GuiAuto
